import Mathlib

/-!
Shallow embedding of the AWS Batch job-orchestration entrypoint
(src/aws-batch/entrypoint.py).  The DynamoDB lease row, the Batch job
state, and the Lambda handler are modelled as pure functions over an
explicit store; external services (S3, AWS Batch) are supplied per
invocation through an oracle record, and side effects are counted in an
explicit effects record.
-/

namespace AwsBatch

/-- JSON values that can appear in the state blob stored in the lease row
(json.dumps of Batch.state_dict, entrypoint.py lines 258-263). -/
inductive JVal where
  | jnull : JVal
  | jstr : String → JVal
  | jnum : Nat → JVal
deriving DecidableEq, Repr

/-- A parsed JSON object: an association list of string keys to values. -/
abbrev Blob := List (String × JVal)

/-- First value bound to a key in a JSON object, if any. -/
def lookupJ : Blob → String → Option JVal
  | [], _ => none
  | (k, v) :: t, key => if key = k then some v else lookupJ t key

/-- Look up a key expecting a string value; a missing key or a non-string
value reads as absent (Python getattr default through the dataclass). -/
def lookupStr (o : Blob) (k : String) : Option String :=
  match lookupJ o k with
  | some (JVal.jstr s) => some s
  | _ => none

/-- Look up a key expecting a numeric value, defaulting to 0 when the key
is absent (the dataclass default for the iters field). -/
def lookupNat (o : Blob) (k : String) : Nat :=
  match lookupJ o k with
  | some (JVal.jnum n) => n
  | _ => 0

/-- Encode an optional string as JSON (None becomes null). -/
def jopt : Option String → JVal
  | none => JVal.jnull
  | some s => JVal.jstr s

/-- TIMEOUT = 5 seconds (entrypoint.py line 15). -/
def TIMEOUT : Int := 5

/-- MAX_ITERS = 10 (entrypoint.py line 16). -/
def MAX_ITERS : Nat := 10

/-- PENDING_STATES (entrypoint.py line 21). -/
def PENDING_STATES : List String :=
  ["SUBMITTED", "PENDING", "RUNNABLE", "STARTING", "RUNNING"]

/-- SUCCESS_STATE (entrypoint.py line 22). -/
def SUCCESS_STATE : String := "SUCCEEDED"

/-- FAILED_STATE (entrypoint.py line 23). -/
def FAILED_STATE : String := "FAILED"

/-- The Batch dataclass (entrypoint.py lines 153-160): per-invocation job
state reconstructed from the stored blob. -/
structure Batch where
  cache_key : String
  job_id : Option String := none
  job_def : Option String := none
  status : Option String := none
  iters : Nat := 0
deriving DecidableEq, Repr

/-- Batch.state_dict (entrypoint.py lines 258-263): the blob persisted to
the lease row.  It contains exactly job_id, job_def and status. -/
def Batch.state_dict (b : Batch) : Blob :=
  [("job_id", jopt b.job_id), ("job_def", jopt b.job_def), ("status", jopt b.status)]

/-- Batch(event["cache_key"], **info) (entrypoint.py line 299): dataclass
construction from the parsed blob; fields missing from the blob take
their defaults, in particular iters defaults to 0. -/
def Batch.ofInfo (ck : String) (info : Blob) : Batch :=
  { cache_key := ck
    job_id := lookupStr info "job_id"
    job_def := lookupStr info "job_def"
    status := lookupStr info "status"
    iters := lookupNat info "iters" }

/-- One DynamoDB row keyed by cache_key: the lock attribute (absent when
unlocked), the last update time, and the optional state blob. -/
structure Row where
  lock_key : Option String
  update_time : Int
  obj : Option Blob
deriving DecidableEq, Repr

/-- The lease store restricted to one cache key: the row, or no row. -/
abbrev Store := Option Row

/-- The stored state blob, if the row exists and has one. -/
def objOf (st : Store) : Option Blob :=
  match st with
  | some r => r.obj
  | none => none

/-- The status string recorded in the stored blob, if any. -/
def statusStrOf (st : Store) : Option String :=
  match objOf st with
  | some o => lookupStr o "status"
  | none => none

/-- The lock attribute of the row, if the row exists. -/
def rowLockOf (st : Store) : Option (Option String) :=
  match st with
  | some r => some r.lock_key
  | none => none

/-- The shared DynamoDB condition expression
attribute_not_exists(#lk) OR #lk = :lk OR #ut < :to
(entrypoint.py lines 82, 111, 141); a missing row passes it. -/
def lockCondB (runId : String) (nw : Int) (st : Store) : Bool :=
  match st with
  | none => true
  | some r =>
      r.lock_key.isNone || r.lock_key == some runId ||
        decide (r.update_time < nw - TIMEOUT)

/-- Dynamo.lock (entrypoint.py lines 105-121): conditional update setting
lock_key and update_time; on condition failure returns false and leaves
the row unchanged. -/
def lockOp (runId : String) (nw : Int) (st : Store) : Bool × Store :=
  if lockCondB runId nw st then
    (true, some { lock_key := some runId, update_time := nw, obj := objOf st })
  else
    (false, st)

/-- Dynamo.put (entrypoint.py lines 77-94): same condition as lock, but
also writes the state blob. -/
def putOp (runId : String) (nw : Int) (o : Blob) (st : Store) : Bool × Store :=
  if lockCondB runId nw st then
    (true, some { lock_key := some runId, update_time := nw, obj := some o })
  else
    (false, st)

/-- Dynamo.unlock (entrypoint.py lines 123-134): removes the lock
attribute, condition is exact ownership only; a missing row or a foreign
owner fails the condition and changes nothing. -/
def unlockOp (runId : String) (nw : Int) (st : Store) : Bool × Store :=
  match st with
  | some r =>
      if r.lock_key == some runId then
        (true, some { r with lock_key := none, update_time := nw })
      else
        (false, some r)
  | none => (false, none)

/-- Dynamo.delete (entrypoint.py lines 136-150): removes the whole row
under the shared condition.  In the handler it only runs while the lock is
held, so the condition holds there. -/
def deleteOp (runId : String) (nw : Int) (st : Store) : Store :=
  if lockCondB runId nw st then none else st

/-- A handler response: status code, message, and the dump entry.  The
outer Option records whether the returned dict has a "dump" key at all;
the inner Option is the JSON value (null or a payload string). -/
structure Response where
  status : Nat
  message : String
  dump : Option (Option String)
deriving DecidableEq, Repr

/-- Counts of the externally visible calls one invocation makes. -/
structure Effects where
  locks : Nat := 0
  unlocks : Nat := 0
  puts : Nat := 0
  deletes : Nat := 0
  s3Reads : Nat := 0
  s3Writes : Nat := 0
  registers : Nat := 0
  submits : Nat := 0
  polls : Nat := 0
  gcs : Nat := 0
deriving DecidableEq, Repr

/-- Pointwise sum of effect counters. -/
def Effects.add (a b : Effects) : Effects where
  locks := a.locks + b.locks
  unlocks := a.unlocks + b.unlocks
  puts := a.puts + b.puts
  deletes := a.deletes + b.deletes
  s3Reads := a.s3Reads + b.s3Reads
  s3Writes := a.s3Writes + b.s3Writes
  registers := a.registers + b.registers
  submits := a.submits + b.submits
  polls := a.polls + b.polls
  gcs := a.gcs + b.gcs

/-- Result of one invocation: the response, the final store, and the
effect counts. -/
structure InvResult where
  resp : Response
  store : Store
  eff : Effects
deriving DecidableEq, Repr

/-- Result of the success pipeline, also carrying the in-memory Batch
object as it stands when the pipeline returns. -/
structure SPOut where
  res : InvResult
  batch : Batch
deriving DecidableEq, Repr

/-- The invocation event (entrypoint.py lines 291-306): cache key, input
payload, and the kwargs mapping of parameter name to list of values. -/
structure Event where
  cache_key : String
  dump : String
  kwargs : List (String × List String)
deriving DecidableEq, Repr

/-- Per-invocation oracle for the external services: the status
describe_jobs reports, the failure reasons it carries, whether the output
object exists in S3 (and its contents), and the identifiers a submission
would mint. -/
structure BatchEnv where
  pollStatus : String
  failureReason : String
  statusReason : String
  s3Output : Option String
  newJobId : String
  newJobDef : String
deriving DecidableEq, Repr

/-- Deployment configuration: DELETE_DYNAMO_ON_FAIL (entrypoint.py
line 20). -/
structure Config where
  deleteOnFail : Bool
deriving DecidableEq, Repr

/-- All inputs of a single invocation: the run id minted for the Dynamo
client, the clock value, the event, and the service oracle. -/
structure Inv where
  runId : String
  nw : Int
  ev : Event
  env : BatchEnv
deriving DecidableEq, Repr

/-- The kwargs comprehension kw = \x7bk: v[-1] for k, v in ...\x7d
(entrypoint.py line 302) raises IndexError when some value list is empty;
str of that error is the fixed Python message. -/
def kwErr (ev : Event) : Option String :=
  if ev.kwargs.any (fun p => p.2.isEmpty) then
    some "list index out of range"
  else
    none

/-- The failure message json.dumps produces in Batch.update
(entrypoint.py lines 235-243). -/
def failedMsg (jid ck fr sr : String) : String :=
  "\x7b\"job_id\":\"" ++ jid ++ "\",\"cache_key\":\"" ++ ck ++
    "\",\"failure_reason\":\"" ++ fr ++ "\",\"status_reason\":\"" ++ sr ++ "\"\x7d"

/-- success_pipeline (entrypoint.py lines 266-288): gc on iters == 0,
read the output object, and either return it, or bump iters and persist,
or give up past the budget. -/
def success_pipeline (iv : Inv) (st : Store) (b : Batch) : SPOut :=
  let g : Nat := if b.iters = 0 then 1 else 0
  match iv.env.s3Output with
  | none =>
      if MAX_ITERS < b.iters then
        { res := { resp := ⟨422, "task failed to write output", some none⟩
                   store := st
                   eff := { gcs := g, s3Reads := 1 } }
          batch := b }
      else
        let b2 := { b with iters := b.iters + 1 }
        let pr := putOp iv.runId iv.nw b2.state_dict st
        { res := { resp := ⟨204, "waiting for task to write output", some none⟩
                   store := pr.2
                   eff := { gcs := g, s3Reads := 1, puts := 1 } }
          batch := b2 }
  | some d =>
      { res := { resp := ⟨200, "Job finished", some (some d)⟩
                 store := st
                 eff := { gcs := g, s3Reads := 1 } }
        batch := b }

/-- The poll branch of the handler (entrypoint.py lines 317-326) together
with Batch.update (lines 220-245): refresh the status from describe_jobs,
persist, then dispatch on the refreshed status. -/
def pollBranch (cfg : Config) (iv : Inv) (st : Store) (b : Batch) : InvResult :=
  let s := iv.env.pollStatus
  let jid := b.job_id.getD ""
  let b2 := { b with status := some s }
  let msg :=
    if s = SUCCESS_STATE then "Job " ++ jid ++ " succeeded."
    else if s = FAILED_STATE then
      failedMsg jid b.cache_key iv.env.failureReason iv.env.statusReason
    else "Job " ++ jid ++ " is processing with status: " ++ s
  let p1 := putOp iv.runId iv.nw b2.state_dict st
  if PENDING_STATES.contains s then
    let p2 := putOp iv.runId iv.nw b2.state_dict p1.2
    { resp := ⟨202, msg, some none⟩, store := p2.2, eff := { polls := 1, puts := 2 } }
  else if s = FAILED_STATE then
    if cfg.deleteOnFail then
      { resp := ⟨400, msg, some none⟩
        store := deleteOp iv.runId iv.nw p1.2
        eff := { polls := 1, puts := 1, deletes := 1 } }
    else
      { resp := ⟨400, msg, some none⟩, store := p1.2, eff := { polls := 1, puts := 1 } }
  else
    let so := success_pipeline iv p1.2 b2
    { so.res with eff := Effects.add { polls := 1, puts := 1 } so.res.eff }

/-- The body of the try block of handler (entrypoint.py lines 296-326),
with the IndexError from an empty kwargs value list routed to the
except-clause response of line 328. -/
def handlerBody (cfg : Config) (iv : Inv) (st : Store) (b : Batch) : InvResult :=
  match b.status with
  | none =>
      match kwErr iv.ev with
      | some m => { resp := ⟨400, m, some none⟩, store := st, eff := {} }
      | none =>
          let b2 := { b with job_id := some iv.env.newJobId
                             job_def := some iv.env.newJobDef
                             status := some "submitted" }
          let pr := putOp iv.runId iv.nw b2.state_dict st
          { resp := ⟨201, "job created and submitted", some none⟩
            store := pr.2
            eff := { puts := 1, s3Writes := 1, registers := 1, submits := 1 } }
  | some s =>
      if s = SUCCESS_STATE then (success_pipeline iv st b).res
      else pollBranch cfg iv st b

/-- handler (entrypoint.py lines 291-330): lock, or return the contention
response (whose dict carries no "dump" key and which skips the
try/finally, hence no unlock); otherwise run the body and always unlock
in the finally clause. -/
def handler (cfg : Config) (iv : Inv) (st : Store) : InvResult :=
  let lr := lockOp iv.runId iv.nw st
  if lr.1 then
    let st1 := lr.2
    let info := (objOf st1).getD []
    let b := Batch.ofInfo iv.ev.cache_key info
    let body := handlerBody cfg iv st1 b
    let ur := unlockOp iv.runId iv.nw body.store
    { resp := body.resp
      store := ur.2
      eff := Effects.add body.eff { locks := 1, unlocks := 1 } }
  else
    { resp := ⟨204, "Could not acquire job lock", none⟩
      store := lr.2
      eff := { locks := 1 } }

/-- A sequence of invocations against the same cache key, run in order;
returns the final store and the summed effects. -/
def runTrace (cfg : Config) (ivs : List Inv) (st : Store) : Store × Effects :=
  match ivs with
  | [] => (st, {})
  | iv :: rest =>
      let r := handler cfg iv st
      let (st2, e) := runTrace cfg rest r.store
      (st2, Effects.add r.eff e)

/-! ### Basic lemmas about the store operations -/

theorem objOf_some (r : Row) : objOf (some r) = r.obj := rfl

theorem objOf_none : objOf none = none := rfl

theorem lockOp_fst (rid : String) (nw : Int) (st : Store) :
    (lockOp rid nw st).1 = lockCondB rid nw st := by
  unfold lockOp
  split <;> simp_all

theorem lockOp_snd_true (rid : String) (nw : Int) (st : Store)
    (h : lockCondB rid nw st = true) :
    (lockOp rid nw st).2 = some { lock_key := some rid, update_time := nw, obj := objOf st } := by
  simp [lockOp, h]

theorem lockOp_snd_false (rid : String) (nw : Int) (st : Store)
    (h : lockCondB rid nw st = false) :
    (lockOp rid nw st).2 = st := by
  simp [lockOp, h]

theorem objOf_lockOp (rid : String) (nw : Int) (st : Store) :
    objOf (lockOp rid nw st).2 = objOf st := by
  unfold lockOp
  split <;> rfl

theorem objOf_unlockOp (rid : String) (nw : Int) (st : Store) :
    objOf (unlockOp rid nw st).2 = objOf st := by
  unfold unlockOp
  rcases st with _ | r
  · rfl
  · dsimp only
    split <;> rfl

theorem lockCondB_owner (rid : String) (nw : Int) (st : Store)
    (h : rowLockOf st = some (some rid)) : lockCondB rid nw st = true := by
  rcases st with _ | r
  · rfl
  · simp [rowLockOf] at h
    simp [lockCondB, h]

theorem putOp_owner (rid : String) (nw : Int) (o : Blob) (st : Store)
    (h : rowLockOf st = some (some rid)) :
    putOp rid nw o st = (true, some { lock_key := some rid, update_time := nw, obj := some o }) := by
  simp [putOp, lockCondB_owner rid nw st h]

theorem unlockOp_clears (rid : String) (nw : Int) (st : Store) (r : Row)
    (h : (unlockOp rid nw st).2 = some r)
    (hown : rowLockOf st = some (some rid) ∨ st = none) : r.lock_key = none := by
  rcases st with _ | r0
  · rcases hown with h1 | h1 <;> simp [unlockOp] at h
  · rcases hown with h1 | h1
    · simp [rowLockOf] at h1
      simp [unlockOp, h1] at h
      rw [h.symm]
    · exact absurd h1 (by simp)

theorem statusStrOf_congr (st1 st2 : Store) (h : objOf st1 = objOf st2) :
    statusStrOf st1 = statusStrOf st2 := by
  unfold statusStrOf
  rw [h]

/-! ### Lemmas about the state blob layout -/

theorem state_dict_keys (b : Batch) :
    b.state_dict.map Prod.fst = ["job_id", "job_def", "status"] := rfl

theorem lookupStr_state_dict_status (b : Batch) :
    lookupStr b.state_dict "status" = b.status := by
  rcases b with ⟨ck, ji, jd, s, it⟩
  rcases s with _ | s <;> simp [Batch.state_dict, lookupStr, lookupJ, jopt]

theorem state_dict_iters (b : Batch) (n : Nat) :
    Batch.state_dict { b with iters := n } = b.state_dict := rfl

theorem lookupJ_none_of_not_mem (o : Blob) (k : String) (h : k ∉ o.map Prod.fst) :
    lookupJ o k = none := by
  induction o with
  | nil => rfl
  | cons p t ih =>
      simp only [List.map_cons, List.mem_cons, not_or] at h
      simp only [lookupJ, if_neg h.1]
      exact ih h.2

theorem ofInfo_iters_of_keys (ck : String) (o : Blob)
    (h : o.map Prod.fst = ["job_id", "job_def", "status"]) :
    (Batch.ofInfo ck o).iters = 0 := by
  have hm : "iters" ∉ o.map Prod.fst := by
    rw [h]
    decide
  simp [Batch.ofInfo, lookupNat, lookupJ_none_of_not_mem o "iters" hm]

/-! ### Structural lemmas about the handler branches -/

/-- The gc count success_pipeline produces: one call when iters is 0. -/
def spGc (b : Batch) : Nat := if b.iters = 0 then 1 else 0

/-- Exhaustive case description of success_pipeline. -/
theorem success_pipeline_cases (iv : Inv) (st : Store) (b : Batch) :
    (∃ d, iv.env.s3Output = some d ∧ success_pipeline iv st b =
      { res := { resp := ⟨200, "Job finished", some (some d)⟩, store := st,
                 eff := { s3Reads := 1, gcs := spGc b } }, batch := b }) ∨
    (iv.env.s3Output = none ∧ MAX_ITERS < b.iters ∧ success_pipeline iv st b =
      { res := { resp := ⟨422, "task failed to write output", some none⟩, store := st,
                 eff := { s3Reads := 1, gcs := spGc b } }, batch := b }) ∨
    (iv.env.s3Output = none ∧ b.iters ≤ MAX_ITERS ∧ success_pipeline iv st b =
      { res := { resp := ⟨204, "waiting for task to write output", some none⟩,
                 store := (putOp iv.runId iv.nw b.state_dict st).2,
                 eff := { puts := 1, s3Reads := 1, gcs := spGc b } },
        batch := { b with iters := b.iters + 1 } }) := by
  rcases h : iv.env.s3Output with _ | d
  · by_cases hm : MAX_ITERS < b.iters
    · exact Or.inr (Or.inl ⟨rfl, hm, by simp [success_pipeline, h, hm, spGc]⟩)
    · refine Or.inr (Or.inr ⟨rfl, Nat.le_of_not_lt hm, ?_⟩)
      simp [success_pipeline, h, hm, spGc, state_dict_iters]
  · refine Or.inl ⟨d, rfl, ?_⟩
    simp [success_pipeline, h, spGc]

theorem success_pipeline_eff_unlocks (iv : Inv) (st : Store) (b : Batch) :
    (success_pipeline iv st b).res.eff.unlocks = 0 := by
  rcases success_pipeline_cases iv st b with ⟨d, _, he⟩ | ⟨_, _, he⟩ | ⟨_, _, he⟩ <;>
    rw [he]

theorem success_pipeline_eff_submits (iv : Inv) (st : Store) (b : Batch) :
    (success_pipeline iv st b).res.eff.submits = 0 := by
  rcases success_pipeline_cases iv st b with ⟨d, _, he⟩ | ⟨_, _, he⟩ | ⟨_, _, he⟩ <;>
    rw [he]

/-- A put by the lock owner keeps the lock owner on the row. -/
theorem rowLockOf_putOp (rid : String) (nw : Int) (o : Blob) (st : Store)
    (h : rowLockOf st = some (some rid)) :
    rowLockOf (putOp rid nw o st).2 = some (some rid) := by
  unfold putOp
  split
  · rfl
  · exact h

/-- A put by the lock owner replaces the stored blob. -/
theorem objOf_putOp_owner (rid : String) (nw : Int) (o : Blob) (st : Store)
    (h : rowLockOf st = some (some rid)) :
    objOf (putOp rid nw o st).2 = some o := by
  rw [putOp_owner rid nw o st h]
  rfl

theorem pollBranch_eff_unlocks (cfg : Config) (iv : Inv) (st : Store) (b : Batch) :
    (pollBranch cfg iv st b).eff.unlocks = 0 := by
  simp only [pollBranch]
  by_cases hp : PENDING_STATES.contains iv.env.pollStatus = true
  · rw [if_pos hp]
  · rw [if_neg hp]
    by_cases hf : iv.env.pollStatus = FAILED_STATE
    · rw [if_pos hf]
      by_cases hd : cfg.deleteOnFail = true
      · rw [if_pos hd]
      · rw [if_neg hd]
    · rw [if_neg hf]
      simp [Effects.add, success_pipeline_eff_unlocks]

theorem pollBranch_eff_submits (cfg : Config) (iv : Inv) (st : Store) (b : Batch) :
    (pollBranch cfg iv st b).eff.submits = 0 := by
  simp only [pollBranch]
  by_cases hp : PENDING_STATES.contains iv.env.pollStatus = true
  · rw [if_pos hp]
  · rw [if_neg hp]
    by_cases hf : iv.env.pollStatus = FAILED_STATE
    · rw [if_pos hf]
      by_cases hd : cfg.deleteOnFail = true
      · rw [if_pos hd]
      · rw [if_neg hd]
    · rw [if_neg hf]
      simp [Effects.add, success_pipeline_eff_submits]

theorem handlerBody_eff_unlocks (cfg : Config) (iv : Inv) (st : Store) (b : Batch) :
    (handlerBody cfg iv st b).eff.unlocks = 0 := by
  unfold handlerBody
  split
  · split <;> rfl
  · split
    · exact success_pipeline_eff_unlocks iv st b
    · exact pollBranch_eff_unlocks cfg iv st b

theorem success_pipeline_rowLock (iv : Inv) (st : Store) (b : Batch)
    (hown : rowLockOf st = some (some iv.runId)) :
    rowLockOf (success_pipeline iv st b).res.store = some (some iv.runId) := by
  rcases success_pipeline_cases iv st b with ⟨d, _, he⟩ | ⟨_, _, he⟩ | ⟨_, _, he⟩ <;>
    rw [he]
  · exact hown
  · exact hown
  · exact rowLockOf_putOp iv.runId iv.nw _ st hown

theorem pollBranch_rowLock (cfg : Config) (iv : Inv) (st : Store) (b : Batch)
    (hown : rowLockOf st = some (some iv.runId)) :
    rowLockOf (pollBranch cfg iv st b).store = some (some iv.runId) ∨
    (pollBranch cfg iv st b).store = none := by
  simp only [pollBranch]
  by_cases hp : PENDING_STATES.contains iv.env.pollStatus = true
  · rw [if_pos hp]
    exact Or.inl (rowLockOf_putOp _ _ _ _ (rowLockOf_putOp _ _ _ _ hown))
  · rw [if_neg hp]
    by_cases hf : iv.env.pollStatus = FAILED_STATE
    · rw [if_pos hf]
      by_cases hd : cfg.deleteOnFail = true
      · rw [if_pos hd]
        dsimp only
        unfold deleteOp
        split
        · exact Or.inr rfl
        · exact Or.inl (rowLockOf_putOp _ _ _ _ hown)
      · rw [if_neg hd]
        exact Or.inl (rowLockOf_putOp _ _ _ _ hown)
    · rw [if_neg hf]
      exact Or.inl (success_pipeline_rowLock iv _ _ (rowLockOf_putOp _ _ _ _ hown))

theorem handlerBody_rowLock (cfg : Config) (iv : Inv) (st : Store) (b : Batch)
    (hown : rowLockOf st = some (some iv.runId)) :
    rowLockOf (handlerBody cfg iv st b).store = some (some iv.runId) ∨
    (handlerBody cfg iv st b).store = none := by
  unfold handlerBody
  split
  · split
    · exact Or.inl hown
    · exact Or.inl (rowLockOf_putOp _ _ _ _ hown)
  · split
    · exact Or.inl (success_pipeline_rowLock iv st b hown)
    · exact pollBranch_rowLock cfg iv st b hown


/-- Unfolding the handler once the lock condition is known to hold. -/
theorem handler_unfold_true (cfg : Config) (iv : Inv) (st : Store)
    (hl : lockCondB iv.runId iv.nw st = true) :
    handler cfg iv st =
      { resp := (handlerBody cfg iv
          (some { lock_key := some iv.runId, update_time := iv.nw, obj := objOf st })
          (Batch.ofInfo iv.ev.cache_key ((objOf st).getD []))).resp
        store := (unlockOp iv.runId iv.nw (handlerBody cfg iv
          (some { lock_key := some iv.runId, update_time := iv.nw, obj := objOf st })
          (Batch.ofInfo iv.ev.cache_key ((objOf st).getD []))).store).2
        eff := Effects.add (handlerBody cfg iv
          (some { lock_key := some iv.runId, update_time := iv.nw, obj := objOf st })
          (Batch.ofInfo iv.ev.cache_key ((objOf st).getD []))).eff
          { locks := 1, unlocks := 1 } } := by
  simp [handler, lockOp, hl, objOf_some]

/-- Unfolding the handler when the lock condition fails. -/
theorem handler_unfold_false (cfg : Config) (iv : Inv) (st : Store)
    (hl : lockCondB iv.runId iv.nw st = false) :
    handler cfg iv st =
      { resp := ⟨204, "Could not acquire job lock", none⟩,
        store := st, eff := { locks := 1 } } := by
  simp [handler, lockOp, hl]

/-- The status field of the Batch the handler reconstructs is absent
whenever the store records no status string. -/
theorem bstatus_none_of_statusStr_none (ck : String) (st : Store)
    (h : statusStrOf st = none) :
    (Batch.ofInfo ck ((objOf st).getD [])).status = none := by
  unfold statusStrOf at h
  cases ho : objOf st with
  | none => simp [ho, Batch.ofInfo, lookupStr, lookupJ]
  | some o =>
      rw [ho] at h
      simpa [ho, Batch.ofInfo] using h

/-- The status field of the reconstructed Batch matches the stored status
string when there is one. -/
theorem bstatus_some_of_statusStr_some (ck : String) (st : Store) (s : String)
    (h : statusStrOf st = some s) :
    (Batch.ofInfo ck ((objOf st).getD [])).status = some s := by
  unfold statusStrOf at h
  cases ho : objOf st with
  | none =>
      rw [ho] at h
      cases h
  | some o =>
      rw [ho] at h
      simpa [ho, Batch.ofInfo] using h

/-- Reading the status string through an explicit blob. -/
theorem statusStrOf_eq (st : Store) (o : Blob) (h : objOf st = some o) :
    statusStrOf st = lookupStr o "status" := by
  unfold statusStrOf
  rw [h]

/-! ### Submission happens only from a record without a status -/

theorem handlerBody_eff_submits_some (cfg : Config) (iv : Inv) (st : Store) (b : Batch)
    (s : String) (hb : b.status = some s) :
    (handlerBody cfg iv st b).eff.submits = 0 := by
  unfold handlerBody
  rw [hb]
  dsimp only
  split
  · exact success_pipeline_eff_submits iv st b
  · exact pollBranch_eff_submits cfg iv st b

theorem success_pipeline_statusStr (iv : Inv) (st : Store) (b : Batch)
    (hown : rowLockOf st = some (some iv.runId))
    (h : ∃ s, statusStrOf st = some s) (hb : ∃ s2, b.status = some s2) :
    ∃ s3, statusStrOf (success_pipeline iv st b).res.store = some s3 := by
  rcases success_pipeline_cases iv st b with ⟨d, _, he⟩ | ⟨_, _, he⟩ | ⟨_, _, he⟩ <;> rw [he]
  · exact h
  · exact h
  · rcases hb with ⟨s2, hb⟩
    refine ⟨s2, ?_⟩
    rw [statusStrOf_eq _ _ (objOf_putOp_owner _ _ _ _ hown), lookupStr_state_dict_status]
    exact hb

theorem pollBranch_statusStr (cfg : Config) (iv : Inv) (st : Store) (b : Batch)
    (hc : cfg.deleteOnFail = false)
    (hown : rowLockOf st = some (some iv.runId)) :
    ∃ s3, statusStrOf (pollBranch cfg iv st b).store = some s3 := by
  simp only [pollBranch]
  have hput : statusStrOf
      (putOp iv.runId iv.nw (Batch.state_dict { b with status := some iv.env.pollStatus }) st).2 =
      some iv.env.pollStatus := by
    rw [statusStrOf_eq _ _ (objOf_putOp_owner _ _ _ _ hown), lookupStr_state_dict_status]
  by_cases hp : PENDING_STATES.contains iv.env.pollStatus = true
  · rw [if_pos hp]
    refine ⟨iv.env.pollStatus, ?_⟩
    rw [statusStrOf_eq _ _ (objOf_putOp_owner _ _ _ _ (rowLockOf_putOp _ _ _ _ hown)),
      lookupStr_state_dict_status]
  · rw [if_neg hp]
    by_cases hf : iv.env.pollStatus = FAILED_STATE
    · rw [if_pos hf]
      rw [if_neg (by simp [hc] : ¬ cfg.deleteOnFail = true)]
      exact ⟨iv.env.pollStatus, hput⟩
    · rw [if_neg hf]
      exact success_pipeline_statusStr iv _ _ (rowLockOf_putOp _ _ _ _ hown)
        ⟨iv.env.pollStatus, hput⟩ ⟨iv.env.pollStatus, rfl⟩

theorem handlerBody_statusStr_some (cfg : Config) (iv : Inv) (st : Store) (b : Batch)
    (s : String) (hc : cfg.deleteOnFail = false)
    (hown : rowLockOf st = some (some iv.runId))
    (hst : statusStrOf st = some s) (hb : b.status = some s) :
    ∃ s3, statusStrOf (handlerBody cfg iv st b).store = some s3 := by
  unfold handlerBody
  rw [hb]
  dsimp only
  split
  · exact success_pipeline_statusStr iv st b hown ⟨s, hst⟩ ⟨s, hb⟩
  · exact pollBranch_statusStr cfg iv st b hc hown

/-- One invocation against a record that already has a status string
submits nothing and leaves some status string in place. -/
theorem handler_step_some (cfg : Config) (iv : Inv) (st : Store) (s : String)
    (hc : cfg.deleteOnFail = false) (hst : statusStrOf st = some s) :
    (handler cfg iv st).eff.submits = 0 ∧
    ∃ s2, statusStrOf (handler cfg iv st).store = some s2 := by
  cases hx : lockCondB iv.runId iv.nw st with
  | false =>
      rw [handler_unfold_false cfg iv st hx]
      exact ⟨rfl, ⟨s, hst⟩⟩
  | true =>
      rw [handler_unfold_true cfg iv st hx]
      have hst1 : statusStrOf
          (some { lock_key := some iv.runId, update_time := iv.nw, obj := objOf st } : Store) =
          some s := by
        rw [statusStrOf_congr _ st (by rw [objOf_some])]
        exact hst
      have hb := bstatus_some_of_statusStr_some iv.ev.cache_key st s hst
      constructor
      · simp [Effects.add, handlerBody_eff_submits_some cfg iv _ _ s hb]
      · obtain ⟨s3, h3⟩ := handlerBody_statusStr_some cfg iv
          (some { lock_key := some iv.runId, update_time := iv.nw, obj := objOf st })
          (Batch.ofInfo iv.ev.cache_key ((objOf st).getD [])) s hc rfl hst1 hb
        refine ⟨s3, ?_⟩
        rw [statusStrOf_congr _ _ (objOf_unlockOp iv.runId iv.nw _)]
        exact h3

/-- One invocation against a record with no status string either submits
nothing and leaves it status-free, or performs exactly one submission and
records a status string. -/
theorem handler_step_none (cfg : Config) (iv : Inv) (st : Store)
    (hst : statusStrOf st = none) :
    ((handler cfg iv st).eff.submits = 0 ∧ statusStrOf (handler cfg iv st).store = none) ∨
    ((handler cfg iv st).eff.submits = 1 ∧
      ∃ s2, statusStrOf (handler cfg iv st).store = some s2) := by
  cases hx : lockCondB iv.runId iv.nw st with
  | false =>
      rw [handler_unfold_false cfg iv st hx]
      exact Or.inl ⟨rfl, hst⟩
  | true =>
      rw [handler_unfold_true cfg iv st hx]
      have hst1 : statusStrOf
          (some { lock_key := some iv.runId, update_time := iv.nw, obj := objOf st } : Store) =
          none := by
        rw [statusStrOf_congr _ st (by rw [objOf_some])]
        exact hst
      have hb := bstatus_none_of_statusStr_none iv.ev.cache_key st hst
      cases hkw : kwErr iv.ev with
      | some m =>
          left
          constructor
          · simp [handlerBody, hb, hkw, Effects.add]
          · have hbody : (handlerBody cfg iv
                (some { lock_key := some iv.runId, update_time := iv.nw, obj := objOf st })
                (Batch.ofInfo iv.ev.cache_key ((objOf st).getD []))).store =
                some { lock_key := some iv.runId, update_time := iv.nw, obj := objOf st } := by
              simp [handlerBody, hb, hkw]
            rw [statusStrOf_congr _ _ (objOf_unlockOp iv.runId iv.nw _), hbody]
            exact hst1
      | none =>
          right
          constructor
          · simp [handlerBody, hb, hkw, Effects.add]
          · refine ⟨"submitted", ?_⟩
            have hbody : (handlerBody cfg iv
                (some { lock_key := some iv.runId, update_time := iv.nw, obj := objOf st })
                (Batch.ofInfo iv.ev.cache_key ((objOf st).getD []))).store =
                (putOp iv.runId iv.nw
                  (Batch.state_dict { Batch.ofInfo iv.ev.cache_key ((objOf st).getD []) with
                    job_id := some iv.env.newJobId, job_def := some iv.env.newJobDef,
                    status := some "submitted" })
                  (some { lock_key := some iv.runId, update_time := iv.nw, obj := objOf st })).2 := by
              simp [handlerBody, hb, hkw]
            rw [statusStrOf_congr _ _ (objOf_unlockOp iv.runId iv.nw _), hbody,
              statusStrOf_eq _ _ (objOf_putOp_owner iv.runId iv.nw _
                (some { lock_key := some iv.runId, update_time := iv.nw, obj := objOf st }) rfl),
              lookupStr_state_dict_status]

/-- Across any run started from a store that already has a status string,
no submissions happen (cleanup-on-fail disabled). -/
theorem runTrace_submits_of_some (cfg : Config) (ivs : List Inv) :
    ∀ (st : Store) (s : String), cfg.deleteOnFail = false → statusStrOf st = some s →
      (runTrace cfg ivs st).2.submits = 0 := by
  induction ivs with
  | nil => intro st s hc hst; rfl
  | cons iv rest ih =>
      intro st s hc hst
      obtain ⟨h0, s2, h2⟩ := handler_step_some cfg iv st s hc hst
      simp only [runTrace]
      simp [Effects.add, h0, ih _ s2 hc h2]

/-- Across any run started from a status-free store, at most one
submission happens (cleanup-on-fail disabled). -/
theorem runTrace_submits_of_none (cfg : Config) (ivs : List Inv) :
    ∀ (st : Store), cfg.deleteOnFail = false → statusStrOf st = none →
      (runTrace cfg ivs st).2.submits ≤ 1 := by
  induction ivs with
  | nil => intro st hc hst; exact Nat.zero_le 1
  | cons iv rest ih =>
      intro st hc hst
      rcases handler_step_none cfg iv st hst with ⟨h0, h2⟩ | ⟨h1, s2, h2⟩
      · simp only [runTrace]
        simp only [Effects.add, h0]
        simpa using ih _ hc h2
      · simp only [runTrace]
        simp only [Effects.add, h1]
        simp [runTrace_submits_of_some cfg rest _ s2 hc h2]

/-! ### The layout of every stored blob -/

/-- Every blob the store may hold was produced by state_dict: its keys are
exactly job_id, job_def and status. -/
def KeysOk (st : Store) : Prop :=
  ∀ o, objOf st = some o → o.map Prod.fst = ["job_id", "job_def", "status"]

theorem keysOk_none : KeysOk none := by
  intro o ho
  cases ho

theorem keysOk_of_objOf_eq (st1 st2 : Store) (h : objOf st1 = objOf st2)
    (hk : KeysOk st2) : KeysOk st1 := by
  intro o ho
  exact hk o (h ▸ ho)

theorem keysOk_putOp (rid : String) (nw : Int) (b : Batch) (st : Store)
    (h : KeysOk st) : KeysOk (putOp rid nw b.state_dict st).2 := by
  unfold putOp
  split
  · intro o ho
    rw [objOf_some] at ho
    cases ho
    exact state_dict_keys b
  · exact h

theorem keysOk_deleteOp (rid : String) (nw : Int) (st : Store)
    (h : KeysOk st) : KeysOk (deleteOp rid nw st) := by
  unfold deleteOp
  split
  · exact keysOk_none
  · exact h

theorem keysOk_success_pipeline (iv : Inv) (st : Store) (b : Batch)
    (h : KeysOk st) : KeysOk (success_pipeline iv st b).res.store := by
  rcases success_pipeline_cases iv st b with ⟨d, _, he⟩ | ⟨_, _, he⟩ | ⟨_, _, he⟩ <;> rw [he]
  · exact h
  · exact h
  · exact keysOk_putOp iv.runId iv.nw b st h

theorem keysOk_pollBranch (cfg : Config) (iv : Inv) (st : Store) (b : Batch)
    (h : KeysOk st) : KeysOk (pollBranch cfg iv st b).store := by
  simp only [pollBranch]
  by_cases hp : PENDING_STATES.contains iv.env.pollStatus = true
  · rw [if_pos hp]
    exact keysOk_putOp _ _ _ _ (keysOk_putOp _ _ _ _ h)
  · rw [if_neg hp]
    by_cases hf : iv.env.pollStatus = FAILED_STATE
    · rw [if_pos hf]
      by_cases hd : cfg.deleteOnFail = true
      · rw [if_pos hd]
        exact keysOk_deleteOp _ _ _ (keysOk_putOp _ _ _ _ h)
      · rw [if_neg hd]
        exact keysOk_putOp _ _ _ _ h
    · rw [if_neg hf]
      exact keysOk_success_pipeline iv _ _ (keysOk_putOp _ _ _ _ h)

theorem keysOk_handlerBody (cfg : Config) (iv : Inv) (st : Store) (b : Batch)
    (h : KeysOk st) : KeysOk (handlerBody cfg iv st b).store := by
  unfold handlerBody
  split
  · split
    · exact h
    · exact keysOk_putOp _ _ _ _ h
  · split
    · exact keysOk_success_pipeline iv st b h
    · exact keysOk_pollBranch cfg iv st b h

theorem keysOk_handler (cfg : Config) (iv : Inv) (st : Store)
    (h : KeysOk st) : KeysOk (handler cfg iv st).store := by
  cases hx : lockCondB iv.runId iv.nw st with
  | false =>
      rw [handler_unfold_false cfg iv st hx]
      exact h
  | true =>
      rw [handler_unfold_true cfg iv st hx]
      apply keysOk_of_objOf_eq _ _ (objOf_unlockOp iv.runId iv.nw _)
      apply keysOk_handlerBody
      exact keysOk_of_objOf_eq _ st (by rw [objOf_some]) h

theorem keysOk_runTrace (cfg : Config) (ivs : List Inv) :
    ∀ st : Store, KeysOk st → KeysOk (runTrace cfg ivs st).1 := by
  induction ivs with
  | nil => intro st h; exact h
  | cons iv rest ih =>
      intro st h
      simp only [runTrace]
      exact ih _ (keysOk_handler cfg iv st h)

/-! ### Shared concrete inputs for witnesses and counterexamples -/

/-- A well-formed submission event for cache key k. -/
def sEv : Event :=
  { cache_key := "k", dump := "in", kwargs := [("script", ["s"]), ("image", ["i"])] }

/-- A service oracle: output object absent, submission mints j1/d1. -/
def sEnv : BatchEnv :=
  { pollStatus := "", failureReason := "fr", statusReason := "sr",
    s3Output := none, newJobId := "j1", newJobDef := "d1" }

/-- First invocation of the sample traces (fresh store, submits). -/
def sIv1 : Inv := { runId := "r1", nw := 100, ev := sEv, env := sEnv }

/-- Second invocation: the poll now reports SUCCEEDED. -/
def sIv2 : Inv :=
  { runId := "r2", nw := 200, ev := sEv, env := { sEnv with pollStatus := "SUCCEEDED" } }

/-- Third invocation: the stored status is already SUCCEEDED. -/
def sIv3 : Inv := { runId := "r3", nw := 300, ev := sEv, env := sEnv }

/-- Second invocation of the failure trace: the poll reports FAILED. -/
def sIvF : Inv :=
  { runId := "r2", nw := 200, ev := sEv, env := { sEnv with pollStatus := "FAILED" } }

/-- A stored blob recording a SUCCEEDED job, as state_dict lays it out. -/
def sObjS : Blob :=
  [("job_id", JVal.jstr "j1"), ("job_def", JVal.jstr "d1"), ("status", JVal.jstr "SUCCEEDED")]

/-- An unlocked row holding sObjS. -/
def sStS : Store := some { lock_key := none, update_time := 0, obj := some sObjS }

/-- A row freshly locked by a different owner. -/
def sStLocked : Store := some { lock_key := some "other", update_time := 100, obj := none }

/-- An invocation arriving one second after the foreign lock above. -/
def sIvLate : Inv := { runId := "r9", nw := 101, ev := sEv, env := sEnv }

/-- An event whose kwargs bind script to an empty list. -/
def sEvBad : Event := { cache_key := "k", dump := "in", kwargs := [("script", [])] }

/-- An invocation carrying the malformed event above. -/
def sIvBad : Inv := { runId := "r1", nw := 100, ev := sEvBad, env := sEnv }

/-! ### Claim theorems -/

/-- C3: a lock call succeeds, setting the owner and refreshing the update
time while keeping the blob, exactly when no lock owner exists on the row
(or the row is absent), or the owner is the caller, or the recorded
update time is older than now minus TIMEOUT; otherwise it returns false
and leaves the row unchanged. -/
theorem claim3_lock_semantics (rid : String) (nw : Int) (st : Store) :
    ((lockOp rid nw st).1 = true ↔
      st = none ∨ ∃ r, st = some r ∧
        (r.lock_key = none ∨ r.lock_key = some rid ∨ r.update_time < nw - TIMEOUT)) ∧
    ((lockOp rid nw st).1 = true →
      (lockOp rid nw st).2 =
        some { lock_key := some rid, update_time := nw, obj := objOf st }) ∧
    ((lockOp rid nw st).1 = false → (lockOp rid nw st).2 = st) := by
  refine ⟨?_, ?_, ?_⟩
  · rw [lockOp_fst]
    rcases st with _ | r
    · simp [lockCondB]
    · simp [lockCondB, Option.isNone_iff_eq_none, or_assoc]
  · intro h
    rw [lockOp_fst] at h
    exact lockOp_snd_true _ _ _ h
  · intro h
    rw [lockOp_fst] at h
    exact lockOp_snd_false _ _ _ h

/-- C6: entering the result-retrieval sub-protocol with the output blob
absent and iterations past the budget returns the 422 response with a
null dump, leaves iterations unchanged, writes nothing to the lease
store, and deletes nothing. -/
theorem claim6_budget_exceeded (iv : Inv) (st : Store) (b : Batch)
    (h1 : iv.env.s3Output = none) (h2 : MAX_ITERS < b.iters) :
    (success_pipeline iv st b).res.resp = ⟨422, "task failed to write output", some none⟩ ∧
    (success_pipeline iv st b).batch.iters = b.iters ∧
    (success_pipeline iv st b).res.store = st ∧
    (success_pipeline iv st b).res.eff.puts = 0 ∧
    (success_pipeline iv st b).res.eff.deletes = 0 := by
  simp [success_pipeline, h1, h2]

/-- C6 witness: the theorem applied at iterations = 11 with the output
object absent. -/
theorem claim6_budget_exceeded_witness :
    (success_pipeline sIv1 sStS
        { cache_key := "k", job_id := some "j1", job_def := some "d1",
          status := some "SUCCEEDED", iters := 11 }).res.resp =
      ⟨422, "task failed to write output", some none⟩ ∧
    (success_pipeline sIv1 sStS
        { cache_key := "k", job_id := some "j1", job_def := some "d1",
          status := some "SUCCEEDED", iters := 11 }).batch.iters = 11 ∧
    (success_pipeline sIv1 sStS
        { cache_key := "k", job_id := some "j1", job_def := some "d1",
          status := some "SUCCEEDED", iters := 11 }).res.store = sStS ∧
    (success_pipeline sIv1 sStS
        { cache_key := "k", job_id := some "j1", job_def := some "d1",
          status := some "SUCCEEDED", iters := 11 }).res.eff.puts = 0 ∧
    (success_pipeline sIv1 sStS
        { cache_key := "k", job_id := some "j1", job_def := some "d1",
          status := some "SUCCEEDED", iters := 11 }).res.eff.deletes = 0 :=
  claim6_budget_exceeded sIv1 sStS
    { cache_key := "k", job_id := some "j1", job_def := some "d1",
      status := some "SUCCEEDED", iters := 11 } rfl (by decide)

/-- C7 counterexample: on lock contention the handler returns status 204
with the contention message, but the returned dict has no dump entry at
all, so its dump is not the null value the claim asserts. -/
theorem claim7_counterexample :
    (handler ⟨false⟩ sIvLate sStLocked).resp.status = 204 ∧
    (handler ⟨false⟩ sIvLate sStLocked).resp.message = "Could not acquire job lock" ∧
    (handler ⟨false⟩ sIvLate sStLocked).resp.dump ≠ some none := by
  decide

/-- C7 amended: when the initial lock attempt fails the handler returns
immediately with status 204 and the contention message, the response
carries no dump entry, the store is untouched, and no other side effect
is performed (the effect record counts only the lock attempt). -/
theorem claim7_amended (cfg : Config) (iv : Inv) (st : Store)
    (hl : (lockOp iv.runId iv.nw st).1 = false) :
    handler cfg iv st =
      { resp := ⟨204, "Could not acquire job lock", none⟩,
        store := st, eff := { locks := 1 } } := by
  rw [lockOp_fst] at hl
  simp [handler, lockOp, hl]

/-- C7 witness: the amended theorem applied to a row freshly locked by a
different owner. -/
theorem claim7_amended_witness :
    handler ⟨false⟩ sIvLate sStLocked =
      { resp := ⟨204, "Could not acquire job lock", none⟩,
        store := sStLocked, eff := { locks := 1 } } :=
  claim7_amended ⟨false⟩ sIvLate sStLocked (by decide)

/-- C5 counterexample: the lock-contention exit path of the handler
returns without ever invoking unlock, so unlock is not invoked on every
exit path of every invocation. -/
theorem claim5_counterexample :
    (handler ⟨false⟩ sIvLate sStLocked).eff.unlocks = 0 ∧
    (handler ⟨false⟩ sIvLate sStLocked).resp.status = 204 := by
  decide

/-- C1: an invocation that finds the stored status SUCCEEDED with the
output blob absent and iterations in budget takes the waiting branch
(204), yet the blob it persists is unchanged — state_dict drops the
iterations field — so the stored record still reconstructs with
iterations 0 instead of the previous stored value plus one. -/
theorem claim1_stored_iterations_unchanged :
    (handler ⟨false⟩ sIv1 sStS).resp = ⟨204, "waiting for task to write output", some none⟩ ∧
    objOf (handler ⟨false⟩ sIv1 sStS).store = some sObjS ∧
    (Batch.ofInfo "k" sObjS).iters = 0 := by
  decide

/-- C2: across a trace in which the job succeeds and the output object
stays absent, the job definition is deregistered on every entry into the
result-retrieval sub-protocol — twice here — because the reconstructed
iterations counter is 0 on every entry, contradicting at-most-once
release. -/
theorem claim2_gc_not_at_most_once :
    (runTrace ⟨false⟩ [sIv1, sIv2, sIv3] none).2.gcs = 2 := by
  decide

/-- C4 counterexample: with cleanup-on-fail enabled, a submit, a FAILED
poll that deletes the record, and a retry produce two executions of the
job-submission branch for the same cache key. -/
theorem claim4_counterexample :
    (runTrace ⟨true⟩ [sIv1, sIvF, sIv3] none).2.submits = 2 := by
  decide

/-- C5 amended: on every invocation that acquires the lock, unlock is
invoked exactly once before returning — also on the modelled unexpected
error path, whose error is caught and converted into a 400 response
carrying the error description — and the returned store holds no lock. -/
theorem claim5_amended (cfg : Config) (iv : Inv) (st : Store)
    (hl : (lockOp iv.runId iv.nw st).1 = true) :
    (handler cfg iv st).eff.unlocks = 1 ∧
    (∀ r, (handler cfg iv st).store = some r → r.lock_key = none) ∧
    (∀ m, statusStrOf st = none → kwErr iv.ev = some m →
      (handler cfg iv st).resp = ⟨400, m, some none⟩) := by
  rw [lockOp_fst] at hl
  rw [handler_unfold_true cfg iv st hl]
  refine ⟨?_, ?_, ?_⟩
  · simp [Effects.add, handlerBody_eff_unlocks]
  · intro r hr
    exact unlockOp_clears iv.runId iv.nw _ r hr
      (handlerBody_rowLock cfg iv _ _ rfl)
  · intro m hstat hkw
    have hb := bstatus_none_of_statusStr_none iv.ev.cache_key st hstat
    simp [handlerBody, hb, hkw]

/-- C5 witness: the amended theorem applied to a fresh store, where the
lock attempt succeeds. -/
theorem claim5_amended_witness :
    (handler ⟨false⟩ sIv1 none).eff.unlocks = 1 ∧
    (∀ r, (handler ⟨false⟩ sIv1 none).store = some r → r.lock_key = none) ∧
    (∀ m, statusStrOf none = none → kwErr sIv1.ev = some m →
      (handler ⟨false⟩ sIv1 none).resp = ⟨400, m, some none⟩) :=
  claim5_amended ⟨false⟩ sIv1 none rfl

/-- C10: an invocation that acquires the lock, finds no stored job state,
and whose event kwargs bind some key to an empty list, returns the 400
response carrying the IndexError description, submits no job, and invokes
unlock before returning, leaving the row unlocked. -/
theorem claim10_empty_kwargs (cfg : Config) (iv : Inv) (st : Store) (k : String)
    (hl : lockCondB iv.runId iv.nw st = true)
    (hobj : objOf st = none)
    (hk : (k, ([] : List String)) ∈ iv.ev.kwargs) :
    (handler cfg iv st).resp = ⟨400, "list index out of range", some none⟩ ∧
    (handler cfg iv st).eff.submits = 0 ∧
    (handler cfg iv st).eff.unlocks = 1 ∧
    ∀ r, (handler cfg iv st).store = some r → r.lock_key = none := by
  have hany : iv.ev.kwargs.any (fun p => p.2.isEmpty) = true :=
    List.any_eq_true.mpr ⟨(k, []), hk, rfl⟩
  have hkw : kwErr iv.ev = some "list index out of range" := by
    simp [kwErr, hany]
  simp [handler, lockOp, hl, objOf_some, hobj, handlerBody, Batch.ofInfo, lookupStr,
    lookupJ, lookupNat, hkw, unlockOp, Effects.add]

/-- C10 witness: the theorem applied to a fresh store and an event whose
script parameter is an empty list. -/
theorem claim10_empty_kwargs_witness :
    (handler ⟨false⟩ sIvBad none).resp = ⟨400, "list index out of range", some none⟩ ∧
    (handler ⟨false⟩ sIvBad none).eff.submits = 0 ∧
    (handler ⟨false⟩ sIvBad none).eff.unlocks = 1 ∧
    ∀ r, (handler ⟨false⟩ sIvBad none).store = some r → r.lock_key = none :=
  claim10_empty_kwargs ⟨false⟩ sIvBad none "script" rfl rfl (by decide)

/-- C4 amended: while the record is never deleted (cleanup-on-fail
disabled), the job-submission branch executes at most once across any
sequence of invocations from a fresh store, and it never executes against
a record that already carries a status (the unset-state guard). -/
theorem claim4_amended (cfg : Config) (ivs : List Inv) (iv : Inv) (st : Store) (s : String)
    (hc : cfg.deleteOnFail = false) (hst : statusStrOf st = some s) :
    (runTrace cfg ivs none).2.submits ≤ 1 ∧
    (handler cfg iv st).eff.submits = 0 :=
  ⟨runTrace_submits_of_none cfg ivs none hc rfl,
    (handler_step_some cfg iv st s hc hst).1⟩

/-- C4 witness: the amended theorem applied to the three-invocation
success trace and to a store already recording a SUCCEEDED job. -/
theorem claim4_amended_witness :
    (runTrace ⟨false⟩ [sIv1, sIv2, sIv3] none).2.submits ≤ 1 ∧
    (handler ⟨false⟩ sIv1 sStS).eff.submits = 0 :=
  claim4_amended ⟨false⟩ [sIv1, sIv2, sIv3] sIv1 sStS "SUCCEEDED" rfl (by decide)

/-- C9: every blob a trace of invocations stores in the lease row holds
exactly the keys job_id, job_def and status, so a record loaded from the
store always reconstructs with the iterations counter equal to 0. -/
theorem claim9_state_blob_layout (cfg : Config) (ivs : List Inv) (ck : String) (o : Blob)
    (h : objOf (runTrace cfg ivs none).1 = some o) :
    o.map Prod.fst = ["job_id", "job_def", "status"] ∧
    (Batch.ofInfo ck o).iters = 0 := by
  have h1 := keysOk_runTrace cfg ivs none keysOk_none o h
  exact ⟨h1, ofInfo_iters_of_keys ck o h1⟩

/-- The poll branch on a pending status: response and persisted status,
with the pending-status facts supplied explicitly. -/
theorem handler_poll_pending (cfg : Config) (iv : Inv) (row : Row) (o : Blob)
    (s jid : String)
    (hobj : row.obj = some o)
    (hlock : lockCondB iv.runId iv.nw (some row) = true)
    (hst : lookupStr o "status" = some s)
    (hs : s ≠ SUCCESS_STATE)
    (hjid : lookupStr o "job_id" = some jid)
    (hpc : PENDING_STATES.contains iv.env.pollStatus = true)
    (hnS : iv.env.pollStatus ≠ SUCCESS_STATE)
    (hnF : iv.env.pollStatus ≠ FAILED_STATE) :
    (handler cfg iv (some row)).resp =
      ⟨202, "Job " ++ jid ++ " is processing with status: " ++ iv.env.pollStatus, some none⟩ ∧
    statusStrOf (handler cfg iv (some row)).store = some iv.env.pollStatus := by
  rw [handler_unfold_true cfg iv (some row) hlock]
  have hgetD : ((objOf (some row)).getD []) = o := by
    rw [objOf_some, hobj]
    rfl
  rw [hgetD]
  have hb : (Batch.ofInfo iv.ev.cache_key o).status = some s := hst
  have hbj : (Batch.ofInfo iv.ev.cache_key o).job_id = some jid := hjid
  set st1 : Store :=
    some { lock_key := some iv.runId, update_time := iv.nw, obj := objOf (some row) } with hst1
  have hown1 : rowLockOf st1 = some (some iv.runId) := by
    rw [hst1]
    rfl
  have hbody : handlerBody cfg iv st1 (Batch.ofInfo iv.ev.cache_key o) =
      pollBranch cfg iv st1 (Batch.ofInfo iv.ev.cache_key o) := by
    unfold handlerBody
    rw [hb]
    dsimp only
    rw [if_neg hs]
  rw [hbody]
  have hresp : (pollBranch cfg iv st1 (Batch.ofInfo iv.ev.cache_key o)).resp =
      ⟨202, "Job " ++ jid ++ " is processing with status: " ++ iv.env.pollStatus, some none⟩ := by
    simp only [pollBranch]
    rw [if_pos hpc]
    rw [if_neg hnS, if_neg hnF, hbj]
    rfl
  have hstore : (pollBranch cfg iv st1 (Batch.ofInfo iv.ev.cache_key o)).store =
      (putOp iv.runId iv.nw
        (Batch.state_dict { Batch.ofInfo iv.ev.cache_key o with status := some iv.env.pollStatus })
        (putOp iv.runId iv.nw
          (Batch.state_dict
            { Batch.ofInfo iv.ev.cache_key o with status := some iv.env.pollStatus })
          st1).2).2 := by
    simp only [pollBranch]
    rw [if_pos hpc]
  refine ⟨hresp, ?_⟩
  rw [statusStrOf_congr _ _ (objOf_unlockOp iv.runId iv.nw _), hstore,
    statusStrOf_eq _ _ (objOf_putOp_owner iv.runId iv.nw _ _
      (rowLockOf_putOp _ _ _ _ hown1)),
    lookupStr_state_dict_status]

/-- C8: an invocation with a job identifier set and a stored status other
than SUCCEEDED, whose poll reports a pending/running status, persists the
refreshed status to the lease store and returns 202 with a processing
message naming the current status and a null dump. -/
theorem claim8_pending_poll (cfg : Config) (iv : Inv) (row : Row) (o : Blob)
    (s jid : String)
    (hobj : row.obj = some o)
    (hlock : lockCondB iv.runId iv.nw (some row) = true)
    (hst : lookupStr o "status" = some s)
    (hs : s ≠ SUCCESS_STATE)
    (hjid : lookupStr o "job_id" = some jid)
    (hp : iv.env.pollStatus ∈ PENDING_STATES) :
    (handler cfg iv (some row)).resp =
      ⟨202, "Job " ++ jid ++ " is processing with status: " ++ iv.env.pollStatus, some none⟩ ∧
    statusStrOf (handler cfg iv (some row)).store = some iv.env.pollStatus := by
  refine handler_poll_pending cfg iv row o s jid hobj hlock hst hs hjid ?_ ?_ ?_
  · exact List.elem_eq_true_of_mem hp
  · intro he
    rw [he] at hp
    exact absurd hp (by decide)
  · intro he
    rw [he] at hp
    exact absurd hp (by decide)

/-- C8 witness: the theorem applied to a stored submitted job polled as
RUNNABLE. -/
theorem claim8_pending_poll_witness :
    (handler ⟨false⟩
        { runId := "r1", nw := 100, ev := sEv, env := { sEnv with pollStatus := "RUNNABLE" } }
        (some { lock_key := none, update_time := 0,
                obj := some [("job_id", JVal.jstr "j1"), ("job_def", JVal.jstr "d1"),
                  ("status", JVal.jstr "submitted")] })).resp =
      ⟨202, "Job " ++ "j1" ++ " is processing with status: " ++ "RUNNABLE", some none⟩ ∧
    statusStrOf (handler ⟨false⟩
        { runId := "r1", nw := 100, ev := sEv, env := { sEnv with pollStatus := "RUNNABLE" } }
        (some { lock_key := none, update_time := 0,
                obj := some [("job_id", JVal.jstr "j1"), ("job_def", JVal.jstr "d1"),
                  ("status", JVal.jstr "submitted")] })).store = some "RUNNABLE" :=
  claim8_pending_poll ⟨false⟩
    { runId := "r1", nw := 100, ev := sEv, env := { sEnv with pollStatus := "RUNNABLE" } }
    { lock_key := none, update_time := 0,
      obj := some [("job_id", JVal.jstr "j1"), ("job_def", JVal.jstr "d1"),
        ("status", JVal.jstr "submitted")] }
    [("job_id", JVal.jstr "j1"), ("job_def", JVal.jstr "d1"), ("status", JVal.jstr "submitted")]
    "submitted" "j1" rfl (by decide) (by decide) (by decide) (by decide) (by decide)

/-- C9 witness: the theorem applied to the blob stored by a single
submitting invocation. -/
theorem claim9_state_blob_layout_witness :
    ([("job_id", JVal.jstr "j1"), ("job_def", JVal.jstr "d1"),
      ("status", JVal.jstr "submitted")] : Blob).map Prod.fst =
      ["job_id", "job_def", "status"] ∧
    (Batch.ofInfo "k" [("job_id", JVal.jstr "j1"), ("job_def", JVal.jstr "d1"),
      ("status", JVal.jstr "submitted")]).iters = 0 :=
  claim9_state_blob_layout ⟨false⟩ [sIv1] "k"
    [("job_id", JVal.jstr "j1"), ("job_def", JVal.jstr "d1"),
      ("status", JVal.jstr "submitted")] (by decide)

end AwsBatch
